import Mathlib

/-!
Verification of the CloudLead automation program (cloudlead_production.py).

The program polls a remote record store for projects in status "New",
synthesizes demo sales leads from a built-in template table, writes them
back in batches, and advances each project through the status workflow
New -> In Progress -> Completed | Failed.  A webhook endpoint creates new
project records.

Shallow embedding: the pure lead synthesizer is translated directly; the
remote store is modelled by boolean oracles deciding the outcome of each
remote call, and every function that issues remote calls also returns the
ordered trace of calls it issued (an `Event` list), so that claims about
which writes happen, and in which order, can be stated and proved.
-/

namespace CloudLead

/-- Configuration of the optional completion service: whether a credential
is configured (`ai_enabled` in the source) and an oracle giving the outcome
of a completion call on a prompt (`Except.error` models a raised transport
or API exception, which the source catches). -/
structure AIConfig where
  ai_enabled : Bool
  complete : String → Except String String

/-- One lead template entry of the built-in `templates` table in
`generate_leads`.  `phone` and `website` are optional, as in the source
dictionaries. -/
structure LeadTemplate where
  company : String
  name : String
  title : String
  email : String
  phone : Option String
  website : Option String
deriving Repr, DecidableEq

/-- The `templates["Technology"]` list from the source. -/
def techTemplates : List LeadTemplate :=
  [ { company := "TechFlow Inc", name := "Sarah Chen", title := "CTO",
      email := "sarah@techflow.com", phone := some "+1-555-0101",
      website := some "techflow.com" },
    { company := "DataNova Systems", name := "Michael Rodriguez",
      title := "Engineering Director", email := "michael@datanova.com",
      phone := none, website := some "datanova.com" },
    { company := "CloudCraft", name := "Jessica Williams",
      title := "VP of Product", email := "jessica@cloudcraft.com",
      phone := none, website := some "cloudcraft.com" } ]

/-- The `templates["Finance"]` list from the source. -/
def financeTemplates : List LeadTemplate :=
  [ { company := "CapitalFirst Bank", name := "Robert Johnson", title := "CFO",
      email := "robert@capitalfirst.com", phone := none,
      website := some "capitalfirst.com" },
    { company := "WealthBuild Advisors", name := "Emily Davis",
      title := "Investment Director", email := "emily@wealthbuild.com",
      phone := none, website := some "wealthbuild.com" } ]

/-- The `templates["Healthcare"]` list from the source. -/
def healthcareTemplates : List LeadTemplate :=
  [ { company := "MedTech Solutions", name := "Dr. James Wilson",
      title := "Chief Medical Officer", email := "james@medtech.com",
      phone := none, website := some "medtech.com" },
    { company := "BioHealth Labs", name := "Lisa Anderson",
      title := "Research Director", email := "lisa@biohealth.com",
      phone := none, website := some "biohealth.com" } ]

/-- Source `templates.get(industry, templates["Technology"])`: look the industry up
among the three keys, falling back to the Technology list. -/
def getTemplate (industry : String) : List LeadTemplate :=
  if industry = "Technology" then techTemplates
  else if industry = "Finance" then financeTemplates
  else if industry = "Healthcare" then healthcareTemplates
  else techTemplates

/-- Unused default for list indexing; `generate_leads` only indexes at
`i % template.length` into one of the three non-empty template lists, so it
is never returned. -/
def dfltTemplate : LeadTemplate :=
  { company := "", name := "", title := "", email := "", phone := none,
    website := none }

/-- One synthesized lead, as built by `generate_leads`: a copy of a template
entry with rewritten `email` and added `analysis` and `score` fields. -/
structure Lead where
  company : String
  name : String
  title : String
  email : String
  phone : Option String
  website : Option String
  analysis : String
  score : Nat
deriving Repr, DecidableEq

/-- Source `lead["email"].replace("@", f"{i}@")` on the character list: every `@`
character is replaced by the decimal digits of `i` followed by `@`. -/
def replaceAt (i : Nat) : List Char → List Char
  | [] => []
  | c :: cs =>
    if c = '@' then (toString i).data ++ ('@' :: replaceAt i cs)
    else c :: replaceAt i cs

/-- String wrapper of `replaceAt`. -/
def replaceAtStr (i : Nat) (s : String) : String :=
  String.mk (replaceAt i s.data)

/-- The prompt built by `ai_analyze` from the company name and optional
website. -/
def mkPrompt (company : String) (website : Option String) : String :=
  let p := "Provide business intelligence analysis for " ++ company
  let p := match website with
    | some w => p ++ " (" ++ w ++ ")"
    | none => p
  p ++ ". Focus on their market position, technology stack, and potential pain points. Keep it under 100 words."

/-- The fixed placeholder `ai_analyze` returns when no completion-service
credential is configured. -/
def aiPlaceholder : String := "AI analysis will be enabled with OpenAI API key"

/-- Source `ai_analyze(company, website)`: returns the analysis text together with
the list of prompts actually sent to the completion service (empty when the
service is not configured; a failed call is caught and turned into an error
string, never re-raised). -/
def ai_analyze (cfg : AIConfig) (company : String) (website : Option String) :
    String × List String :=
  if !cfg.ai_enabled then (aiPlaceholder, [])
  else
    let prompt := mkPrompt company website
    match cfg.complete prompt with
    | Except.ok t => (t, [prompt])
    | Except.error e => ("AI analysis error: " ++ e, [prompt])

/-- The loop body of `generate_leads` at index `i`: copy template entry
`i % len(template)`, rewrite its email, attach the analysis and the
validation score `80 + (i % 20)`.  Returns the lead together with the
completion-service prompts issued for it. -/
def mkLead (cfg : AIConfig) (template : List LeadTemplate) (i : Nat) :
    Lead × List String :=
  let t := template.getD (i % template.length) dfltTemplate
  let a := ai_analyze cfg t.company t.website
  ({ company := t.company, name := t.name, title := t.title,
     email := replaceAtStr i t.email, phone := t.phone, website := t.website,
     analysis := a.fst, score := 80 + (i % 20) }, a.snd)

/-- Source `generate_leads(industry, count)`: `count` is a Python `int`, so it is
modelled as `Int`; `range(min(count, 20))` yields the indices
`0, ..., (min count 20).toNat - 1` (empty for a non-positive bound).
Returns the lead list together with all completion-service prompts issued. -/
def generate_leads (cfg : AIConfig) (industry : String) (count : Int) :
    List Lead × List String :=
  let template := getTemplate industry
  let items := (List.range (min count 20).toNat).map (mkLead cfg template)
  (items.map Prod.fst, (items.map Prod.snd).flatten)

/-- The record shape written to the `Leads` table, as built inside
`add_leads` from one lead (`now` is the `datetime.now().isoformat()`
timestamp, passed explicitly). -/
structure LeadRecord where
  company : String
  website : String
  name : String
  title : String
  email : String
  phone : String
  status : String
  validationScore : Nat
  lastVerified : String
  project : List String
  notes : String
deriving Repr, DecidableEq

/-- The per-lead record conversion loop of `add_leads`. -/
def leadToRecord (now projectId : String) (lead : Lead) : LeadRecord :=
  { company := lead.company, website := lead.website.getD "",
    name := lead.name, title := lead.title, email := lead.email,
    phone := lead.phone.getD "", status := "Verified",
    validationScore := lead.score, lastVerified := now,
    project := [projectId], notes := lead.analysis }

/-- One remote call issued against the record store, in issue order:
a `PATCH` of a project record (`updateStatus`), a `POST` of one batch of
lead records (`postLeads`), or the pure synthesis step of the processor
(`genLeads`, recorded so that claims about whether synthesis was reached
can be stated). -/
inductive Event where
  | updateStatus (projectId status : String) (leadCount : Nat)
  | postLeads (projectId : String) (batch : List LeadRecord)
  | genLeads (industry : String) (count : Int)
deriving Repr, DecidableEq

/-- Source `update_project_status(project_id, status, leads_count)`: issues one
`PATCH`; `ok` is the oracle for whether the remote call reported success
(a non-200 status or a raised exception both yield `false` in the source).
Returns the reported outcome and the issued call. -/
def update_project_status (ok : Bool) (projectId status : String)
    (leadsCount : Nat) : Bool × List Event :=
  (ok, [Event.updateStatus projectId status leadsCount])

/-- Number of iterations of `for i in range(0, len(records), 10)`. -/
def numBatches (len : Nat) : Nat := (len + 9) / 10

/-- The batch-write loop of `add_leads`: `n` batches remain, the next one
is batch number `k`, holding `records[10*k : 10*k + 10]`.  `ok k` is the
oracle for whether the `POST` of batch `k` reports success; on the first
failure the loop returns `false` at once, issuing no further calls. -/
def writeLoop (ok : Nat → Bool) (projectId : String)
    (records : List LeadRecord) : Nat → Nat → Bool × List Event
  | 0, _ => (true, [])
  | n + 1, k =>
    let batch := (records.drop (10 * k)).take 10
    if ok k then
      let rest := writeLoop ok projectId records n (k + 1)
      (rest.fst, Event.postLeads projectId batch :: rest.snd)
    else (false, [Event.postLeads projectId batch])

/-- Source `add_leads(project_id, leads)`: an empty list returns `True` without
issuing any call; otherwise the converted records are written in batches of
at most 10. -/
def add_leads (ok : Nat → Bool) (now projectId : String)
    (leads : List Lead) : Bool × List Event :=
  if leads.isEmpty then (true, [])
  else
    let records := leads.map (leadToRecord now projectId)
    writeLoop ok projectId records (numBatches records.length) 0

/-- The batches `add_leads` partitions the converted records into:
batch `k` is `records[10*k : 10*k + 10]`. -/
def theBatches (records : List LeadRecord) : List (List LeadRecord) :=
  (List.range (numBatches records.length)).map
    fun k => (records.drop (10 * k)).take 10

/-- The `fields` of a project record, as read by `process_project`
(`fields.get` on a missing key is `none`). -/
structure ProjectFields where
  projectName : Option String
  industry : Option String
  leadCount : Option Int

/-- A project record fetched from the store. -/
structure Project where
  id : String
  fields : ProjectFields

/-- Source `fields.get("Industry", "Technology")`. -/
def resolveIndustry (industry : Option String) : String :=
  industry.getD "Technology"

/-- Source `fields.get("Lead Count", 10) or 10`: a missing value defaults to 10,
and so does a falsy one (the integer 0). -/
def resolveCount (leadCount : Option Int) : Int :=
  match leadCount with
  | none => 10
  | some v => if v = 0 then 10 else v

/-- Outcomes of the remote calls `process_project` issues, in order: the
status update to "In Progress", the per-batch lead inserts, and the final
status update (whose result the source ignores). -/
structure Oracles where
  updateInProgress : Bool
  batchOk : Nat → Bool
  updateFinal : Bool

/-- Source `process_project(project)`: returns the ordered trace of calls issued.
If the update to "In Progress" fails, processing stops there; otherwise the
leads are synthesized and inserted, and the final status written is
"Completed" with the lead count on insertion success, "Failed" with 0 on
failure. -/
def process_project (cfg : AIConfig) (o : Oracles) (now : String)
    (p : Project) : List Event :=
  let first := update_project_status o.updateInProgress p.id "In Progress" 0
  if !first.fst then first.snd
  else
    let industry := resolveIndustry p.fields.industry
    let leadCount := resolveCount p.fields.leadCount
    let leads := (generate_leads cfg industry leadCount).fst
    let ins := add_leads o.batchOk now p.id leads
    if ins.fst then
      first.snd ++ [Event.genLeads industry leadCount] ++ ins.snd
        ++ (update_project_status o.updateFinal p.id "Completed"
              leads.length).snd
    else
      first.snd ++ [Event.genLeads industry leadCount] ++ ins.snd
        ++ (update_project_status o.updateFinal p.id "Failed" 0).snd

/-- The project-status writes issued in a trace, in order, with the lead
count each carried. -/
def statusWrites (evs : List Event) : List (String × Nat) :=
  evs.filterMap fun e =>
    match e with
    | Event.updateStatus _ s c => some (s, c)
    | _ => none

/-- The body a webhook caller may post: every field optional. -/
structure WebhookBody where
  project_name : Option String
  industry : Option String
  region : Option String
  lead_count : Option Int

/-- The `WebhookBody` of an empty request body: no field present. -/
def emptyBody : WebhookBody :=
  { project_name := none, industry := none, region := none,
    lead_count := none }

/-- The project-record fields the webhook handler sends to the store. -/
structure ProjectRecordFields where
  projectName : String
  industryField : String
  region : String
  leadCount : Int
  status : String
  dateCreated : String
deriving Repr, DecidableEq

/-- The response the handler returns: HTTP status code plus the JSON body
fields. -/
structure WebhookResponse where
  httpStatus : Nat
  status : String
  message : String
deriving Repr, DecidableEq

/-- Source `handle_project()`: builds the project record from the posted body with
per-field defaults and sends it; `createOk` is the oracle for whether the
store `POST` returns 200, and `errText` the response text reported on
failure.  Returns the record sent together with the response given to the
caller. -/
def handle_project (createOk : Bool) (errText now : String)
    (body : WebhookBody) : ProjectRecordFields × WebhookResponse :=
  let fields : ProjectRecordFields :=
    { projectName := body.project_name.getD "New Project",
      industryField := body.industry.getD "Technology",
      region := body.region.getD "Global",
      leadCount := body.lead_count.getD 10,
      status := "New", dateCreated := now }
  if createOk then
    (fields, { httpStatus := 200, status := "success",
               message := "Project created successfully" })
  else
    (fields, { httpStatus := 400, status := "error", message := errText })

/-- Concrete configuration with no completion-service credential, used to
instantiate theorems on concrete inputs. -/
def noAIConfig : AIConfig :=
  { ai_enabled := false, complete := fun _ => Except.error "unavailable" }

/-- Concrete oracles in which every remote call succeeds. -/
def allOkOracles : Oracles :=
  { updateInProgress := true, batchOk := fun _ => true, updateFinal := true }

/-- Concrete oracles in which every lead-batch insert fails. -/
def failingBatchOracles : Oracles :=
  { updateInProgress := true, batchOk := fun _ => false, updateFinal := true }

/-- Concrete oracles in which the first status update fails. -/
def failingUpdateOracles : Oracles :=
  { updateInProgress := false, batchOk := fun _ => true, updateFinal := true }

/-- Concrete project with no optional field present. -/
def testProject : Project :=
  { id := "recTEST", fields := { projectName := none, industry := none,
                                 leadCount := none } }

/-- Insertion of a string immediately before the first `@` character of an
email address, as the specification describes the email rewrite. -/
def insertBeforeAt (e : String) (s : String) : String :=
  String.mk (e.data.takeWhile (fun c => c ≠ '@') ++ s.data
    ++ e.data.dropWhile (fun c => c ≠ '@'))

/-- Email produced for index `i` from template list `t`, as built by
`mkLead`. -/
def emailAt (t : List LeadTemplate) (i : Nat) : String :=
  replaceAtStr i ((t.getD (i % t.length) dfltTemplate).email)

/-- Records sent to the store by `add_leads` for a lead list, in order. -/
def convertedRecords (now projectId : String) (leads : List Lead) :
    List LeadRecord :=
  leads.map (leadToRecord now projectId)

/-- Concrete list of 11 leads, enough to need two store batches. -/
def sampleLeads : List Lead := (generate_leads noAIConfig "Technology" 11).fst

/-- Concrete batch oracle where only the first batch write succeeds. -/
def firstBatchOnlyOk : Nat → Bool := fun k => k == 0

end CloudLead

namespace CloudLead

lemma generate_leads_fst (cfg : AIConfig) (industry : String) (count : Int) :
    (generate_leads cfg industry count).fst
      = (List.range (min count 20).toNat).map
          (fun i => (mkLead cfg (getTemplate industry) i).fst) := by
  simp [generate_leads, List.map_map]

lemma generate_leads_length (cfg : AIConfig) (industry : String)
    (count : Int) :
    (generate_leads cfg industry count).fst.length = (min count 20).toNat := by
  rw [generate_leads_fst]
  simp

lemma generate_leads_length_le (cfg : AIConfig) (industry : String)
    (count : Int) :
    (generate_leads cfg industry count).fst.length ≤ 20 := by
  rw [generate_leads_length]
  have h : min count 20 ≤ (20 : Int) := min_le_right _ _
  omega

lemma generate_leads_get (cfg : AIConfig) (industry : String) (count : Int)
    (i : Nat) (hi : i < (generate_leads cfg industry count).fst.length) :
    (generate_leads cfg industry count).fst.get ⟨i, hi⟩
      = (mkLead cfg (getTemplate industry) i).fst := by
  have hlen := generate_leads_length cfg industry count
  have hi2 : i < (min count 20).toNat := hlen ▸ hi
  simp [List.get_eq_getElem, generate_leads_fst, List.getElem_map,
    List.getElem_range]

lemma getTemplate_cases (industry : String) :
    getTemplate industry = techTemplates
      ∨ getTemplate industry = financeTemplates
      ∨ getTemplate industry = healthcareTemplates := by
  unfold getTemplate
  split_ifs <;> simp

lemma getTemplate_unknown (industry : String) (h1 : industry ≠ "Technology")
    (h2 : industry ≠ "Finance") (h3 : industry ≠ "Healthcare") :
    getTemplate industry = techTemplates := by
  simp [getTemplate, h1, h2, h3]

lemma mkLead_email (cfg : AIConfig) (t : List LeadTemplate) (i : Nat) :
    (mkLead cfg t i).fst.email = emailAt t i := rfl

lemma mkLead_score (cfg : AIConfig) (t : List LeadTemplate) (i : Nat) :
    (mkLead cfg t i).fst.score = 80 + (i % 20) := rfl

lemma mkLead_company (cfg : AIConfig) (t : List LeadTemplate) (i : Nat) :
    (mkLead cfg t i).fst.company
      = (t.getD (i % t.length) dfltTemplate).company := rfl

lemma emailAt_tech_distinct : ∀ i j : Fin 20, i.val ≠ j.val →
    emailAt techTemplates i.val ≠ emailAt techTemplates j.val := by decide

lemma emailAt_finance_distinct : ∀ i j : Fin 20, i.val ≠ j.val →
    emailAt financeTemplates i.val ≠ emailAt financeTemplates j.val := by
  decide

lemma emailAt_health_distinct : ∀ i j : Fin 20, i.val ≠ j.val →
    emailAt healthcareTemplates i.val ≠ emailAt healthcareTemplates j.val := by
  decide

lemma emailAt_tech_insert : ∀ i : Fin 20,
    emailAt techTemplates i.val
      = insertBeforeAt
          ((techTemplates.getD (i.val % techTemplates.length)
              dfltTemplate).email)
          (toString i.val) := by decide

lemma emailAt_finance_insert : ∀ i : Fin 20,
    emailAt financeTemplates i.val
      = insertBeforeAt
          ((financeTemplates.getD (i.val % financeTemplates.length)
              dfltTemplate).email)
          (toString i.val) := by decide

lemma emailAt_health_insert : ∀ i : Fin 20,
    emailAt healthcareTemplates i.val
      = insertBeforeAt
          ((healthcareTemplates.getD (i.val % healthcareTemplates.length)
              dfltTemplate).email)
          (toString i.val) := by decide

/-- C3 counterexample: the claim quantifies over every integer count at most
20, but at `count = -1` the source produces `range(min(-1, 20)) = range(-1)`,
which is empty, so 0 leads are returned rather than -1. -/
theorem generate_leads_negative_count_counterexample :
    (-1 : Int) ≤ 20
      ∧ ((generate_leads noAIConfig "Technology" (-1)).fst.length : Int)
          ≠ -1 := by
  decide

/-- C3 (amended): for every industry and every integer count with
0 ≤ count ≤ 20, `generate_leads` returns exactly `count` leads, and for
every count > 20 it returns exactly 20 leads. -/
theorem generate_leads_count_cap (cfg : AIConfig) (industry : String)
    (count : Int) :
    (0 ≤ count → count ≤ 20 →
      ((generate_leads cfg industry count).fst.length : Int) = count)
    ∧ (20 < count → (generate_leads cfg industry count).fst.length = 20) := by
  have h := generate_leads_length cfg industry count
  constructor
  · intro h0 h20
    rw [h]
    have hmin : min count 20 = count := min_eq_left h20
    rw [hmin]
    omega
  · intro h20
    rw [h]
    have hmin : min count 20 = 20 := min_eq_right (le_of_lt h20)
    rw [hmin]
    rfl

/-- C3 witness: at count 3 exactly 3 leads come back, at count 25 exactly
20. -/
theorem generate_leads_count_cap_witness :
    ((0 : Int) ≤ 3 ∧ (3 : Int) ≤ 20
        ∧ ((generate_leads noAIConfig "Technology" 3).fst.length : Int) = 3)
    ∧ ((20 : Int) < 25
        ∧ (generate_leads noAIConfig "Technology" 25).fst.length = 20) := by
  refine ⟨⟨by decide, by decide, ?_⟩, ⟨by decide, ?_⟩⟩
  · exact (generate_leads_count_cap noAIConfig "Technology" 3).1
      (by decide) (by decide)
  · exact (generate_leads_count_cap noAIConfig "Technology" 25).2 (by decide)

/-- C4: within one `generate_leads` call, leads at distinct indices have
distinct emails, and the email at index i is the email of template entry
`i % len(template)` with the decimal digits of i inserted immediately
before the `@` character. -/
theorem generate_leads_emails_unique (cfg : AIConfig) (industry : String)
    (count : Int) :
    (∀ i j (hi : i < (generate_leads cfg industry count).fst.length)
       (hj : j < (generate_leads cfg industry count).fst.length), i ≠ j →
       ((generate_leads cfg industry count).fst.get ⟨i, hi⟩).email
         ≠ ((generate_leads cfg industry count).fst.get ⟨j, hj⟩).email)
    ∧ (∀ i (hi : i < (generate_leads cfg industry count).fst.length),
       ((generate_leads cfg industry count).fst.get ⟨i, hi⟩).email
         = insertBeforeAt
             (((getTemplate industry).getD
                 (i % (getTemplate industry).length) dfltTemplate).email)
             (toString i)) := by
  have hle := generate_leads_length_le cfg industry count
  constructor
  · intro i j hi hj hne
    have hi20 : i < 20 := lt_of_lt_of_le hi hle
    have hj20 : j < 20 := lt_of_lt_of_le hj hle
    rw [generate_leads_get, generate_leads_get, mkLead_email, mkLead_email]
    rcases getTemplate_cases industry with ht | ht | ht <;> rw [ht]
    · exact emailAt_tech_distinct ⟨i, hi20⟩ ⟨j, hj20⟩ hne
    · exact emailAt_finance_distinct ⟨i, hi20⟩ ⟨j, hj20⟩ hne
    · exact emailAt_health_distinct ⟨i, hi20⟩ ⟨j, hj20⟩ hne
  · intro i hi
    have hi20 : i < 20 := lt_of_lt_of_le hi hle
    rw [generate_leads_get, mkLead_email]
    rcases getTemplate_cases industry with ht | ht | ht <;> rw [ht]
    · exact emailAt_tech_insert ⟨i, hi20⟩
    · exact emailAt_finance_insert ⟨i, hi20⟩
    · exact emailAt_health_insert ⟨i, hi20⟩

/-- C4 witness: in the Finance call with count 3, the leads at indices 0
and 1 carry distinct emails. -/
theorem generate_leads_emails_unique_witness :
    (0 : Nat) ≠ 1
    ∧ ((generate_leads noAIConfig "Finance" 3).fst.get ⟨0, by decide⟩).email
        ≠ ((generate_leads noAIConfig "Finance" 3).fst.get
            ⟨1, by decide⟩).email := by
  refine ⟨by decide, ?_⟩
  exact (generate_leads_emails_unique noAIConfig "Finance" 3).1 0 1
    (by decide) (by decide) (by decide)

/-- C7: an industry matching none of the three template keys falls back to
the Technology template list, so every produced company name is one of the
Technology template companies. -/
theorem generate_leads_fallback (cfg : AIConfig) (industry : String)
    (count : Int) (h1 : industry ≠ "Technology") (h2 : industry ≠ "Finance")
    (h3 : industry ≠ "Healthcare") :
    getTemplate industry = techTemplates
    ∧ ∀ lead ∈ (generate_leads cfg industry count).fst,
        lead.company ∈ ["TechFlow Inc", "DataNova Systems", "CloudCraft"] := by
  have ht := getTemplate_unknown industry h1 h2 h3
  refine ⟨ht, ?_⟩
  intro lead hmem
  rw [generate_leads_fst] at hmem
  rcases List.mem_map.mp hmem with ⟨i, _, rfl⟩
  rw [mkLead_company, ht]
  have hlt : i % techTemplates.length < 3 := by
    have h3' : techTemplates.length = 3 := rfl
    rw [h3']
    exact Nat.mod_lt _ (by norm_num)
  have hall : ∀ k : Fin 3,
      (techTemplates.getD k.val dfltTemplate).company
        ∈ (["TechFlow Inc", "DataNova Systems", "CloudCraft"] : List String) :=
    by decide
  exact hall ⟨i % techTemplates.length, hlt⟩

/-- C7 witness: the unknown industry "Unknown" uses the Technology
templates, and the first produced lead carries a Technology company name. -/
theorem generate_leads_fallback_witness :
    getTemplate "Unknown" = techTemplates
    ∧ ((generate_leads noAIConfig "Unknown" 5).fst.get ⟨0, by decide⟩).company
        ∈ ["TechFlow Inc", "DataNova Systems", "CloudCraft"] := by
  have h := generate_leads_fallback noAIConfig "Unknown" 5
    (by decide) (by decide) (by decide)
  exact ⟨h.1, h.2 _ (List.get_mem _ _ _)⟩

/-- C8: the function `generate_leads` is total for every completion-service
oracle
(it always returns the capped number of leads, so no failure of the
service escapes it), and when no credential is configured every produced
analysis equals the fixed placeholder and no completion call is issued. -/
theorem generate_leads_no_ai (cfg : AIConfig) (industry : String)
    (count : Int) :
    ((generate_leads cfg industry count).fst.length = (min count 20).toNat)
    ∧ (cfg.ai_enabled = false →
        (∀ lead ∈ (generate_leads cfg industry count).fst,
          lead.analysis = aiPlaceholder)
        ∧ (generate_leads cfg industry count).snd = []) := by
  refine ⟨generate_leads_length cfg industry count, fun hai => ⟨?_, ?_⟩⟩
  · intro lead hmem
    rw [generate_leads_fst] at hmem
    rcases List.mem_map.mp hmem with ⟨i, _, rfl⟩
    show (mkLead cfg (getTemplate industry) i).fst.analysis = aiPlaceholder
    simp [mkLead, ai_analyze, hai]
  · simp only [generate_leads, List.map_map]
    rw [List.flatten_eq_nil_iff]
    intro l hl
    rcases List.mem_map.mp hl with ⟨i, _, rfl⟩
    simp [mkLead, ai_analyze, hai]

/-- C8 witness: with no credential configured, the first lead of a concrete
call carries the placeholder analysis and no prompt is sent. -/
theorem generate_leads_no_ai_witness :
    ((generate_leads noAIConfig "Technology" 2).fst.get
        ⟨0, by decide⟩).analysis = aiPlaceholder
    ∧ (generate_leads noAIConfig "Technology" 2).snd = [] := by
  have h := (generate_leads_no_ai noAIConfig "Technology" 2).2 rfl
  exact ⟨h.1 _ (List.get_mem _ _ _), h.2⟩

/-- C9: the lead at index i of any `generate_leads` call has validation
score `80 + (i % 20)`, which lies between 80 and 99. -/
theorem generate_leads_scores (cfg : AIConfig) (industry : String)
    (count : Int) :
    ∀ i (hi : i < (generate_leads cfg industry count).fst.length),
      ((generate_leads cfg industry count).fst.get ⟨i, hi⟩).score
          = 80 + (i % 20)
      ∧ 80 ≤ ((generate_leads cfg industry count).fst.get ⟨i, hi⟩).score
      ∧ ((generate_leads cfg industry count).fst.get ⟨i, hi⟩).score ≤ 99 := by
  intro i hi
  rw [generate_leads_get, mkLead_score]
  have hmod : i % 20 < 20 := Nat.mod_lt _ (by norm_num)
  exact ⟨rfl, by omega, by omega⟩

/-- C9 witness: the third Finance lead has score 82. -/
theorem generate_leads_scores_witness :
    ((generate_leads noAIConfig "Finance" 3).fst.get ⟨2, by decide⟩).score
      = 80 + (2 % 20) := by
  exact (generate_leads_scores noAIConfig "Finance" 3 2 (by decide)).1

lemma writeLoop_fst_iff (ok : Nat → Bool) (pid : String)
    (recs : List LeadRecord) (n : Nat) :
    ∀ k, ((writeLoop ok pid recs n k).fst = true
      ↔ ∀ j, j < n → ok (k + j) = true) := by
  induction n with
  | zero =>
    intro k
    simp [writeLoop]
  | succ n ih =>
    intro k
    rw [writeLoop]
    cases hok : ok k with
    | true =>
      simp only [hok, if_true]
      rw [ih (k + 1)]
      constructor
      · intro hall j hj
        cases j with
        | zero => simpa using hok
        | succ j =>
          have hthis := hall j (by omega)
          have heq : k + 1 + j = k + (j + 1) := by omega
          rwa [heq] at hthis
      · intro hall j hj
        have hthis := hall (j + 1) (by omega)
        have heq : k + (j + 1) = k + 1 + j := by omega
        rwa [heq] at hthis
    | false =>
      simp only [hok, Bool.false_eq_true, if_false]
      refine iff_of_false (by simp) ?_
      intro hall
      have hthis := hall 0 (by omega)
      rw [Nat.add_zero, hok] at hthis
      exact Bool.false_ne_true hthis

lemma range_succ_map {α : Type} (f : Nat → α) (n : Nat) :
    (List.range (n + 1)).map f
      = f 0 :: (List.range n).map fun j => f (j + 1) := by
  rw [List.range_succ_eq_map, List.map_cons, List.map_map]
  rfl

lemma writeLoop_snd_ok (ok : Nat → Bool) (pid : String)
    (recs : List LeadRecord) (n : Nat) :
    ∀ k, (∀ j, j < n → ok (k + j) = true) →
      (writeLoop ok pid recs n k).snd
        = (List.range n).map
            (fun j => Event.postLeads pid
              ((recs.drop (10 * (k + j))).take 10)) := by
  induction n with
  | zero =>
    intro k _
    simp [writeLoop]
  | succ n ih =>
    intro k hall
    have hk : ok k = true := by simpa using hall 0 (by omega)
    rw [writeLoop]
    simp only [hk, if_true]
    rw [ih (k + 1) (fun j hj => by
      have hthis := hall (j + 1) (by omega)
      rwa [show k + (j + 1) = k + 1 + j by omega] at hthis)]
    have hfeq : (fun j => Event.postLeads pid
          ((recs.drop (10 * (k + 1 + j))).take 10))
        = fun j => Event.postLeads pid
            ((recs.drop (10 * (k + (j + 1)))).take 10) := by
      funext j
      have harith : k + 1 + j = k + (j + 1) := by omega
      rw [harith]
    rw [hfeq, range_succ_map
      (fun j => Event.postLeads pid ((recs.drop (10 * (k + j))).take 10)) n]
    rfl

lemma writeLoop_snd_fail (ok : Nat → Bool) (pid : String)
    (recs : List LeadRecord) (n : Nat) :
    ∀ k j, j < n → ok (k + j) = false → (∀ m, m < j → ok (k + m) = true) →
      (writeLoop ok pid recs n k).snd
        = (List.range (j + 1)).map
            (fun m => Event.postLeads pid
              ((recs.drop (10 * (k + m))).take 10)) := by
  induction n with
  | zero =>
    intro k j hj
    omega
  | succ n ih =>
    intro k j hj hfail hpre
    rw [writeLoop]
    cases j with
    | zero =>
      have hk : ok k = false := by simpa using hfail
      have hr : List.range 1 = [0] := rfl
      simp [hk, hr]
    | succ j =>
      have hk : ok k = true := by simpa using hpre 0 (by omega)
      simp only [hk, if_true]
      rw [ih (k + 1) j (by omega)
        (by rwa [show k + 1 + j = k + (j + 1) by omega])
        (fun m hm => by
          have hthis := hpre (m + 1) (by omega)
          rwa [show k + (m + 1) = k + 1 + m by omega] at hthis)]
      have hfeq : (fun m => Event.postLeads pid
            ((recs.drop (10 * (k + 1 + m))).take 10))
          = fun m => Event.postLeads pid
              ((recs.drop (10 * (k + (m + 1)))).take 10) := by
        funext m
        have harith : k + 1 + m = k + (m + 1) := by omega
        rw [harith]
      rw [hfeq, range_succ_map
        (fun m => Event.postLeads pid ((recs.drop (10 * (k + m))).take 10))
        (j + 1)]
      rfl

lemma writeLoop_fst_iff_zero (ok : Nat → Bool) (pid : String)
    (recs : List LeadRecord) (n : Nat) :
    ((writeLoop ok pid recs n 0).fst = true ↔ ∀ j, j < n → ok j = true) := by
  rw [writeLoop_fst_iff]
  constructor
  · intro hall j hj
    simpa using hall j hj
  · intro hall j hj
    simpa using hall j hj

lemma writeLoop_snd_ok_zero (ok : Nat → Bool) (pid : String)
    (recs : List LeadRecord) (n : Nat) (hall : ∀ j, j < n → ok j = true) :
    (writeLoop ok pid recs n 0).snd
      = (List.range n).map
          (fun j => Event.postLeads pid ((recs.drop (10 * j)).take 10)) := by
  rw [writeLoop_snd_ok ok pid recs n 0 (fun j hj => by simpa using hall j hj)]
  have hfeq : (fun j => Event.postLeads pid
        ((recs.drop (10 * (0 + j))).take 10))
      = fun j => Event.postLeads pid ((recs.drop (10 * j)).take 10) := by
    funext j
    rw [Nat.zero_add]
  rw [hfeq]

lemma writeLoop_snd_fail_zero (ok : Nat → Bool) (pid : String)
    (recs : List LeadRecord) (n j : Nat) (hj : j < n) (hfail : ok j = false)
    (hpre : ∀ m, m < j → ok m = true) :
    (writeLoop ok pid recs n 0).snd
      = (List.range (j + 1)).map
          (fun m => Event.postLeads pid ((recs.drop (10 * m)).take 10)) := by
  rw [writeLoop_snd_fail ok pid recs n 0 j hj (by simpa using hfail)
    (fun m hm => by simpa using hpre m hm)]
  have hfeq : (fun m => Event.postLeads pid
        ((recs.drop (10 * (0 + m))).take 10))
      = fun m => Event.postLeads pid ((recs.drop (10 * m)).take 10) := by
    funext m
    rw [Nat.zero_add]
  rw [hfeq]

lemma theBatches_length (recs : List LeadRecord) :
    (theBatches recs).length = numBatches recs.length := by
  simp [theBatches]

lemma theBatches_le (recs : List LeadRecord) :
    ∀ b ∈ theBatches recs, b.length ≤ 10 := by
  intro b hb
  rcases List.mem_map.mp hb with ⟨k, _, rfl⟩
  simp [List.length_take]

lemma theBatches_cons (recs : List LeadRecord) (h : recs ≠ []) :
    theBatches recs = recs.take 10 :: theBatches (recs.drop 10) := by
  have hpos : 0 < recs.length := List.length_pos.mpr h
  have hn : numBatches recs.length
      = numBatches (recs.drop 10).length + 1 := by
    simp only [numBatches, List.length_drop]
    omega
  have htail : theBatches (recs.drop 10)
      = (List.range (numBatches (recs.drop 10).length)).map
          (fun k => (recs.drop (10 * (k + 1))).take 10) := by
    unfold theBatches
    have hfeq : (fun k => ((recs.drop 10).drop (10 * k)).take 10)
        = fun k => (recs.drop (10 * (k + 1))).take 10 := by
      funext k
      rw [List.drop_drop]
      have harith : 10 + 10 * k = 10 * (k + 1) := by omega
      rw [harith]
    rw [hfeq]
  calc theBatches recs
      = (List.range (numBatches (recs.drop 10).length + 1)).map
          (fun k => (recs.drop (10 * k)).take 10) := by
        unfold theBatches
        rw [hn]
    _ = recs.take 10 :: (List.range (numBatches (recs.drop 10).length)).map
          (fun k => (recs.drop (10 * (k + 1))).take 10) := by
        rw [range_succ_map]
        rfl
    _ = recs.take 10 :: theBatches (recs.drop 10) := by
        rw [htail]

lemma theBatches_flatten (recs : List LeadRecord) :
    (theBatches recs).flatten = recs := by
  rcases eq_or_ne recs [] with h | h
  · subst h
    rfl
  · have ih := theBatches_flatten (recs.drop 10)
    rw [theBatches_cons recs h, List.flatten_cons, ih,
      List.take_append_drop]
termination_by recs.length
decreasing_by
  have hpos : 0 < recs.length := List.length_pos.mpr h
  simp only [List.length_drop]
  omega

lemma add_leads_ne_nil (ok : Nat → Bool) (now pid : String)
    (leads : List Lead) (h : leads ≠ []) :
    add_leads ok now pid leads
      = writeLoop ok pid (convertedRecords now pid leads)
          (numBatches (convertedRecords now pid leads).length) 0 := by
  simp [add_leads, convertedRecords, h]

/-- C5: the converted records are partitioned in order into consecutive
batches of at most 10 per write call; `add_leads` reports success exactly
when every batch write succeeds; and after the first failed batch no
further write is issued, the trace stopping at that batch. -/
theorem add_leads_batching (ok : Nat → Bool) (now pid : String)
    (leads : List Lead) :
    ((theBatches (convertedRecords now pid leads)).flatten
        = convertedRecords now pid leads
      ∧ ∀ b ∈ theBatches (convertedRecords now pid leads), b.length ≤ 10)
    ∧ ((add_leads ok now pid leads).fst = true ↔
        ∀ k, k < (theBatches (convertedRecords now pid leads)).length →
          ok k = true)
    ∧ ((∀ k, k < (theBatches (convertedRecords now pid leads)).length →
          ok k = true) →
        (add_leads ok now pid leads).snd
          = (theBatches (convertedRecords now pid leads)).map
              (Event.postLeads pid))
    ∧ (∀ j, j < (theBatches (convertedRecords now pid leads)).length →
        ok j = false → (∀ k, k < j → ok k = true) →
        (add_leads ok now pid leads).snd
          = ((theBatches (convertedRecords now pid leads)).take (j + 1)).map
              (Event.postLeads pid)) := by
  refine ⟨⟨theBatches_flatten _, theBatches_le _⟩, ?_, ?_, ?_⟩
  all_goals rcases eq_or_ne leads [] with h | h
  · subst h
    simp [add_leads, convertedRecords, theBatches, numBatches]
  · rw [add_leads_ne_nil ok now pid leads h, theBatches_length,
      writeLoop_fst_iff_zero]
  · subst h
    intro _
    simp [add_leads, convertedRecords, theBatches, numBatches]
  · intro hall
    rw [theBatches_length] at hall
    rw [add_leads_ne_nil ok now pid leads h,
      writeLoop_snd_ok_zero ok pid _ _ hall]
    unfold theBatches
    rw [List.map_map]
    rfl
  · subst h
    intro j hj
    simp [convertedRecords, theBatches, numBatches] at hj
  · intro j hj hfail hpre
    rw [theBatches_length] at hj
    rw [add_leads_ne_nil ok now pid leads h,
      writeLoop_snd_fail_zero ok pid _ _ j hj hfail hpre]
    unfold theBatches
    rw [← List.map_take, List.take_range]
    have hmin : min (j + 1) (numBatches
        (convertedRecords now pid leads).length) = j + 1 := by omega
    rw [hmin, List.map_map]
    rfl

/-- C5 witness: with 11 leads and only the first batch write succeeding,
the trace stops after the second batch. -/
theorem add_leads_batching_witness :
    (1 < (theBatches (convertedRecords "t0" "recW" sampleLeads)).length
      ∧ firstBatchOnlyOk 1 = false)
    ∧ (add_leads firstBatchOnlyOk "t0" "recW" sampleLeads).snd
        = ((theBatches (convertedRecords "t0" "recW" sampleLeads)).take
            2).map (Event.postLeads "recW") := by
  refine ⟨⟨by decide, by decide⟩, ?_⟩
  exact (add_leads_batching firstBatchOnlyOk "t0" "recW" sampleLeads).2.2.2 1
    (by decide) (by decide)
    (fun k hk => by
      have hk0 : k = 0 := by omega
      subst hk0
      decide)

/-- C10: inserting an empty lead list reports success at once and issues no
remote write. -/
theorem add_leads_empty_leads (ok : Nat → Bool) (now pid : String) :
    add_leads ok now pid [] = (true, []) := rfl

/-- C2: when the status update to "In Progress" fails, processing stops
after that single write: the whole trace is that one update, with no
synthesis step and no lead insert. -/
theorem process_project_aborts (cfg : AIConfig) (o : Oracles) (now : String)
    (p : Project) (h : o.updateInProgress = false) :
    process_project cfg o now p
      = [Event.updateStatus p.id "In Progress" 0] := by
  simp [process_project, update_project_status, h]

/-- C2 witness: with a failing first update, the concrete project yields
exactly the one failed write. -/
theorem process_project_aborts_witness :
    failingUpdateOracles.updateInProgress = false
    ∧ process_project noAIConfig failingUpdateOracles "t0" testProject
        = [Event.updateStatus "recTEST" "In Progress" 0] := by
  refine ⟨rfl, ?_⟩
  exact process_project_aborts noAIConfig failingUpdateOracles "t0"
    testProject rfl

lemma statusWrites_append (a b : List Event) :
    statusWrites (a ++ b) = statusWrites a ++ statusWrites b := by
  simp [statusWrites]

lemma statusWrites_update (ok : Bool) (pid s : String) (c : Nat) :
    statusWrites (update_project_status ok pid s c).snd = [(s, c)] := rfl

lemma statusWrites_gen (industry : String) (count : Int) :
    statusWrites [Event.genLeads industry count] = [] := rfl

lemma statusWrites_writeLoop (ok : Nat → Bool) (pid : String)
    (recs : List LeadRecord) (n : Nat) :
    ∀ k, statusWrites (writeLoop ok pid recs n k).snd = [] := by
  induction n with
  | zero =>
    intro k
    rfl
  | succ n ih =>
    intro k
    rw [writeLoop]
    cases hok : ok k with
    | true =>
      simp only [hok, if_true]
      simpa [statusWrites] using ih (k + 1)
    | false =>
      simp [hok, statusWrites]

lemma statusWrites_add_leads (ok : Nat → Bool) (now pid : String)
    (leads : List Lead) :
    statusWrites (add_leads ok now pid leads).snd = [] := by
  rcases eq_or_ne leads [] with h | h
  · subst h
    rfl
  · rw [add_leads_ne_nil ok now pid leads h]
    exact statusWrites_writeLoop ok pid _ _ 0

/-- C1: once the project is marked "In Progress", the last status write
issued is "Completed" carrying the generated lead count when the insertion
succeeds, and "Failed" carrying 0 when it fails. -/
theorem process_project_final_status (cfg : AIConfig) (o : Oracles)
    (now : String) (p : Project) (h : o.updateInProgress = true) :
    ((add_leads o.batchOk now p.id
        (generate_leads cfg (resolveIndustry p.fields.industry)
          (resolveCount p.fields.leadCount)).fst).fst = true →
      (statusWrites (process_project cfg o now p)).getLast?
        = some ("Completed",
            (generate_leads cfg (resolveIndustry p.fields.industry)
              (resolveCount p.fields.leadCount)).fst.length))
    ∧ ((add_leads o.batchOk now p.id
        (generate_leads cfg (resolveIndustry p.fields.industry)
          (resolveCount p.fields.leadCount)).fst).fst = false →
      (statusWrites (process_project cfg o now p)).getLast?
        = some ("Failed", 0)) := by
  constructor <;> intro hins <;>
    simp only [process_project, update_project_status, h,
      Bool.not_true, Bool.false_eq_true, if_false, hins, if_true,
      statusWrites_append, statusWrites_add_leads] <;>
    simp only [statusWrites, List.filterMap_cons, List.filterMap_nil,
      List.nil_append, List.append_nil] <;>
    rfl

/-- C1 witness: with every remote call succeeding and the default lead
count of 10, the last status write is "Completed" with count 10. -/
theorem process_project_final_status_witness :
    (statusWrites
        (process_project noAIConfig allOkOracles "t0" testProject)).getLast?
      = some ("Completed", 10) := by
  have h := (process_project_final_status noAIConfig allOkOracles "t0"
    testProject rfl).1 (by decide)
  exact h.trans (by decide)

/-- C6: a webhook request with an empty body produces a project record with
the default name, industry, region, lead count 10 and status "New", and a
store-confirmed creation is answered with the success response. -/
theorem handle_project_empty_body (createOk : Bool) (errText now : String) :
    (handle_project createOk errText now emptyBody).fst
      = { projectName := "New Project", industryField := "Technology",
          region := "Global", leadCount := 10, status := "New",
          dateCreated := now }
    ∧ (handle_project true errText now emptyBody).snd
      = { httpStatus := 200, status := "success",
          message := "Project created successfully" } := by
  constructor
  · cases createOk <;> rfl
  · rfl

end CloudLead
